import Mathlib

/-!
Verification of the asky list-selection prompt engine.

This file shallowly embeds the selection engine of the asky toolkit:
the `Choice` record, search filtering, windowed pagination and cursor
navigation, the selection-toggle logic, the per-key dispatch of the
single-select and multi-select `Render` loops, and the entry checks
(`makeSpace`, empty-choice and min/max validation).

Modelling conventions:
- Go strings are modelled as byte lists (`List Nat`); `strings.Contains`
  is byte-level substring search exactly as in Go, and `strings.ToLower`
  is modelled by its ASCII case mapping (the Unicode case tables are not
  modelled; all labels and queries considered here are ASCII except where
  the byte-level behaviour itself is under scrutiny).
- Go `int` values that can go negative (page size, default indices,
  configured counts, terminal dimensions) are modelled as `Int`.
- The keyboard source is modelled as a list of key events; the render
  loop consumes them one at a time exactly as the `keyboard.Listen`
  callback does, stopping when the callback returns `true`.
- Terminal metrics are a parameter (width, height, error flag), matching
  the `getTermDimensions` contract.
- Presentation-only configuration (markers, labels, themes) does not
  affect any modelled state transition and is omitted.
-/

namespace Asky

/-- The `Choice` record from the source: identity `Value`, display
`Label` (both Go strings, modelled as byte lists) and a `Disabled` flag. -/
structure Choice where
  Value : List Nat
  Label : List Nat
  Disabled : Bool
deriving DecidableEq

/-- The zero value `Choice{}` used by the single-select prompt as the
"no selection" sentinel. -/
def zeroChoice : Choice := ⟨[], [], false⟩

/-- UTF-8 encoding of one rune, as performed by the Go `string(rune)`
conversion when a typed rune is appended to the search query. -/
def utf8EncodeChar (c : Char) : List Nat :=
  let n := c.toNat
  if n < 128 then [n]
  else if n < 2048 then [192 + n / 64, 128 + n % 64]
  else if n < 65536 then [224 + n / 4096, 128 + n / 64 % 64, 128 + n % 64]
  else [240 + n / 262144, 128 + n / 4096 % 64, 128 + n / 64 % 64, 128 + n % 64]

/-- Bytes of a Go string literal given by its characters. -/
def strBytes (cs : List Char) : List Nat := (cs.map utf8EncodeChar).flatten

/-- ASCII case mapping of one byte, the byte-level content of
`strings.ToLower` (non-ASCII case mappings are out of modelling scope). -/
def toLowerByte (b : Nat) : Nat := if 65 ≤ b ∧ b ≤ 90 then b + 32 else b

/-- Byte-level model of `strings.ToLower`. -/
def toLowerBytes (s : List Nat) : List Nat := s.map toLowerByte

/-- Whether `sub` is a leading run of `s` (helper for substring search). -/
def leadMatch : List Nat → List Nat → Bool
  | [], _ => true
  | _ :: _, [] => false
  | a :: as, b :: bs => a == b && leadMatch as bs

/-- The Go `strings.Contains(s, sub)` function: byte-level substring occurrence. -/
def containsSub : List Nat → List Nat → Bool
  | [], sub => leadMatch sub []
  | b :: t, sub => leadMatch sub (b :: t) || containsSub t sub

/-- The `filterChoices` closure shared (textually identical) by the
single-select and multi-select engines: the full list for an empty
query, otherwise the choices whose lowered label contains the lowered
query. -/
def filterChoices (choices : List Choice) (query : List Nat) : List Choice :=
  if query = [] then choices
  else choices.filter (fun c => containsSub (toLowerBytes c.Label) (toLowerBytes query))

/-- The cursor/window portion of the session state shared by both
variants: the filtered list, `cursorIdx`, and the `[startIdx, endIdx)`
window. -/
structure NavState where
  filteredChoices : List Choice
  cursorIdx : Int
  startIdx : Int
  endIdx : Int
deriving DecidableEq

/-- The `navigateUp` closure (identical in both engines). -/
def navigateUp (pageSize : Int) (s : NavState) : NavState :=
  if 0 < s.cursorIdx then
    let c := s.cursorIdx - 1
    if c < s.startIdx then
      { s with cursorIdx := c, startIdx := c,
               endIdx := min (c + pageSize) (s.filteredChoices.length : Int) }
    else { s with cursorIdx := c }
  else s

/-- The `navigateDown` closure (identical in both engines). -/
def navigateDown (pageSize : Int) (s : NavState) : NavState :=
  if s.cursorIdx < (s.filteredChoices.length : Int) - 1 then
    let c := s.cursorIdx + 1
    if c ≥ s.endIdx then
      { s with cursorIdx := c, endIdx := c + 1, startIdx := max 0 (c + 1 - pageSize) }
    else { s with cursorIdx := c }
  else s

/-- The `resetCursorAfterFilter` closure (identical in both engines),
run after the filtered list was recomputed. -/
def resetCursorAfterFilter (pageSize : Int) (s : NavState) : NavState :=
  if s.filteredChoices.length = 0 then
    { s with cursorIdx := 0, startIdx := 0, endIdx := 0 }
  else
    let n : Int := (s.filteredChoices.length : Int)
    let c := if s.cursorIdx ≥ n then n - 1 else s.cursorIdx
    let st1 := if c < s.startIdx then c else s.startIdx
    let st2 := if c ≥ st1 + pageSize then max 0 (c - pageSize + 1) else st1
    { s with cursorIdx := c, startIdx := st2, endIdx := min (st2 + pageSize) n }

/-- The multi-select `isSelected` closure: membership by `Value`. -/
def isSelected (sel : List Choice) (choice : Choice) : Bool :=
  sel.any (fun x => x.Value == choice.Value)

/-- Removal of the first element whose `Value` matches, mirroring the
removal loop inside `toggleSelection`; `none` when no element matches. -/
def removeFirstByValue : List Choice → List Nat → Option (List Choice)
  | [], _ => none
  | c :: t, v =>
    if c.Value = v then some t else (removeFirstByValue t v).map (fun r => c :: r)

/-- The multi-select `toggleSelection` closure: remove the first
value-match if present, otherwise append when `maxSelectedCount` is zero
or the current count is below it (note: the raw configured field, not
the derived `maxAllowed`). -/
def toggleSelection (maxSelectedCount : Int) (sel : List Choice) (choice : Choice) :
    List Choice :=
  match removeFirstByValue sel choice.Value with
  | some rest => rest
  | none =>
    if maxSelectedCount = 0 ∨ (sel.length : Int) < maxSelectedCount then sel ++ [choice]
    else sel

/-- Decimal digits of a non-negative Go int, as `strconv.Itoa` renders it. -/
def intToBytes (n : Int) : List Nat :=
  if n < 0 then 45 :: (Nat.toDigits 10 n.natAbs).map Char.toNat
  else (Nat.toDigits 10 n.toNat).map Char.toNat

/-- The single-select rejection message "No selection made (required)". -/
def noSelectionMadeMsg : List Nat :=
  strBytes ['N','o',' ','s','e','l','e','c','t','i','o','n',' ','m','a','d','e',' ',
            '(','r','e','q','u','i','r','e','d',')']

/-- The message "No choices available". -/
def noChoicesAvailableMsg : List Nat :=
  strBytes ['N','o',' ','c','h','o','i','c','e','s',' ','a','v','a','i','l','a','b','l','e']

/-- The message "Cannot select a disabled choice". -/
def disabledChoiceMsg : List Nat :=
  strBytes ['C','a','n','n','o','t',' ','s','e','l','e','c','t',' ','a',' ',
            'd','i','s','a','b','l','e','d',' ','c','h','o','i','c','e']

/-- The message "At least N choices must be selected". -/
def atLeastMsg (n : Int) : List Nat :=
  strBytes ['A','t',' ','l','e','a','s','t',' '] ++ intToBytes n ++
  strBytes [' ','c','h','o','i','c','e','s',' ','m','u','s','t',' ','b','e',' ',
            's','e','l','e','c','t','e','d']

/-- The message "Cannot select more than N choices". -/
def maxExceededMsg (n : Int) : List Nat :=
  strBytes ['C','a','n','n','o','t',' ','s','e','l','e','c','t',' ','m','o','r','e',' ',
            't','h','a','n',' '] ++ intToBytes n ++
  strBytes [' ','c','h','o','i','c','e','s']

/-- Key events delivered by the keyboard source (`keys.Key` codes the
engines dispatch on; `runeKey` carries `key.Runes`). -/
inductive Key where
  | ctrlC | up | down | left | right | tab | escape | enter | space | backspace
  | runeKey (rs : List Char)
deriving DecidableEq

/-- Error kinds of the prompt engines (`asky_errors.go`). -/
inductive AskyError where
  | terminalTooSmall | noSelectionChoices | invalidSelectionCount | interrupted
deriving DecidableEq

/-- Result of a `Render` call driven by a finite key list: `pending`
when the loop would block for more input, `failed` on an error return,
`ok` on a confirmed selection. -/
inductive RenderResult (α : Type) where
  | pending : RenderResult α
  | failed : AskyError → RenderResult α
  | ok : α → RenderResult α
deriving DecidableEq

/-- Terminal metrics as reported by `getTermDimensions`: columns, rows
and whether the call errored. -/
structure TermDims where
  width : Int
  height : Int
  err : Bool
deriving DecidableEq

/-- `makeSpace` from the source: discards the metrics error and rejects
the terminal when the raw height is below the requested lines or the raw
width is below 50 columns. Output side effects (the printed newlines)
are not modelled. -/
def makeSpace (d : TermDims) (lines : Int) : Option AskyError :=
  if d.height < lines ∨ d.width < 50 then some AskyError.terminalTooSmall else none

/-- The effective width used by the banner `padLine`: 80 columns when
the metrics call errored or reported a non-positive width. -/
def padLineTermWidth (d : TermDims) : Int :=
  if d.err = true ∨ d.width ≤ 0 then 80 else d.width

/-- The effective width used by the progress-bar renderer: 80 columns
when the reported width is non-positive (the error value is discarded). -/
def progressTermWidth (d : TermDims) : Int :=
  if d.width ≤ 0 then 80 else d.width

/-- Multi-select configuration fields that affect modelled behaviour. -/
structure MultiCfg where
  choices : List Choice
  defaultChoices : List Int
  optional : Bool
  minSelectedCount : Int
  maxSelectedCount : Int
  pageSize : Int
deriving DecidableEq

/-- `minRequired` as computed at the top of `multiSelect.Render`. -/
def multiMinRequired (cfg : MultiCfg) : Int :=
  let m := max cfg.minSelectedCount 0
  if cfg.optional = false ∧ m = 0 then 1 else m

/-- `maxAllowed` as computed at the top of `multiSelect.Render`:
`maxSelectedCount` clamped to zero, defaulting to the original
choice-list length when zero. -/
def multiMaxAllowed (cfg : MultiCfg) : Int :=
  let m := max cfg.maxSelectedCount 0
  if m = 0 then (cfg.choices.length : Int) else m

/-- The session `pageSize` of `multiSelect.Render`: the configured page
size capped by the initial (full) choice-list length. -/
def multiPageSize (cfg : MultiCfg) : Int :=
  min cfg.pageSize (cfg.choices.length : Int)

/-- Multi-select session state (the loop-local variables of
`multiSelect.Render` plus the receiver field `selectedChoices`). -/
structure MultiState where
  searchQuery : List Nat
  searchMode : Bool
  nav : NavState
  valMessage : List Nat
  selectedChoices : List Choice
  interrupted : Bool
deriving DecidableEq

/-- The default-choice initialization loop: for each configured index in
order, append the choice at that index when it is in range (no
duplicate, disabled or count check). -/
def initSelectedChoices (choices : List Choice) (defaults : List Int) : List Choice :=
  defaults.foldl
    (fun acc i =>
      if 0 ≤ i ∧ i < (choices.length : Int) then acc ++ [choices.getD i.toNat zeroChoice]
      else acc)
    []

/-- The multi-select session state at the initial render: full list
visible, cursor and window at the top, selection built from the
default-choice indices when any are configured. -/
def multiInit (cfg : MultiCfg) : MultiState :=
  { searchQuery := []
    searchMode := false
    nav := { filteredChoices := cfg.choices, cursorIdx := 0, startIdx := 0,
             endIdx := min (cfg.choices.length : Int) (multiPageSize cfg) }
    valMessage := []
    selectedChoices :=
      if cfg.defaultChoices = [] then []
      else initSelectedChoices cfg.choices cfg.defaultChoices
    interrupted := false }

/-- The multi-select Space handler: reject on an empty filtered list, on
a disabled current choice, or when adding would exceed `maxAllowed`;
otherwise toggle and update the below-minimum message. -/
def multiSpaceKey (cfg : MultiCfg) (s : MultiState) : MultiState :=
  if s.nav.filteredChoices.length = 0 then { s with valMessage := noChoicesAvailableMsg }
  else
    let c := s.nav.filteredChoices.getD s.nav.cursorIdx.toNat zeroChoice
    if c.Disabled then { s with valMessage := disabledChoiceMsg }
    else if isSelected s.selectedChoices c = false ∧
            (s.selectedChoices.length : Int) ≥ multiMaxAllowed cfg then
      { s with valMessage := maxExceededMsg (multiMaxAllowed cfg) }
    else
      let sel := toggleSelection cfg.maxSelectedCount s.selectedChoices c
      if (sel.length : Int) < multiMinRequired cfg then
        { s with selectedChoices := sel, valMessage := atLeastMsg (multiMinRequired cfg) }
      else { s with selectedChoices := sel, valMessage := [] }

/-- One dispatch of the `keyboard.Listen` callback of
`multiSelect.Render`; the Bool is the stop flag of the callback. -/
def multiStep (cfg : MultiCfg) (s : MultiState) (k : Key) : MultiState × Bool :=
  match k with
  | Key.ctrlC => ({ s with interrupted := true }, true)
  | Key.up => ({ s with nav := navigateUp (multiPageSize cfg) s.nav }, false)
  | Key.left => ({ s with nav := navigateUp (multiPageSize cfg) s.nav }, false)
  | Key.down => ({ s with nav := navigateDown (multiPageSize cfg) s.nav }, false)
  | Key.right => ({ s with nav := navigateDown (multiPageSize cfg) s.nav }, false)
  | Key.tab => ({ s with searchMode := !s.searchMode }, false)
  | Key.escape => (if s.searchMode then { s with searchMode := false } else s, false)
  | Key.enter =>
    if (s.selectedChoices.length : Int) < multiMinRequired cfg then
      ({ s with valMessage := atLeastMsg (multiMinRequired cfg) }, false)
    else (s, true)
  | Key.space => (multiSpaceKey cfg s, false)
  | Key.backspace =>
    if s.searchMode = true ∧ s.searchQuery ≠ [] then
      let q := s.searchQuery.dropLast
      let f := filterChoices cfg.choices q
      ({ s with searchQuery := q,
                nav := resetCursorAfterFilter (multiPageSize cfg)
                         { s.nav with filteredChoices := f } }, false)
    else (s, false)
  | Key.runeKey rs =>
    match rs with
    | [] => (s, false)
    | r :: _ =>
      if s.searchMode then
        let q := s.searchQuery ++ utf8EncodeChar r
        let f := filterChoices cfg.choices q
        ({ s with searchQuery := q,
                  nav := resetCursorAfterFilter (multiPageSize cfg)
                           { s.nav with filteredChoices := f } }, false)
      else if r = 'j' ∨ r = 'l' then
        ({ s with nav := navigateDown (multiPageSize cfg) s.nav }, false)
      else if r = 'k' ∨ r = 'h' then
        ({ s with nav := navigateUp (multiPageSize cfg) s.nav }, false)
      else (s, false)

/-- The multi-select event loop over a finite key list: the state when
the keys are exhausted, and whether the loop stopped. -/
def runMulti (cfg : MultiCfg) : MultiState → List Key → MultiState × Bool
  | s, [] => (s, false)
  | s, k :: ks =>
    let r := multiStep cfg s k
    if r.2 then (r.1, true) else runMulti cfg r.1 ks

/-- `multiSelect.Render` over a finite key list: terminal-space check,
empty-list check, min/max check, then the event loop; on a stop, the
interrupt error or the selected choices. -/
def multiRender (cfg : MultiCfg) (d : TermDims) (ks : List Key) :
    RenderResult (List Choice) :=
  if (makeSpace d (9 + multiPageSize cfg)).isSome then
    RenderResult.failed AskyError.terminalTooSmall
  else if cfg.choices.length = 0 then RenderResult.failed AskyError.noSelectionChoices
  else if multiMaxAllowed cfg < multiMinRequired cfg then
    RenderResult.failed AskyError.invalidSelectionCount
  else
    let r := runMulti cfg (multiInit cfg) ks
    if r.2 then
      if r.1.interrupted then RenderResult.failed AskyError.interrupted
      else RenderResult.ok r.1.selectedChoices
    else RenderResult.pending

/-- Single-select configuration fields that affect modelled behaviour. -/
structure SingleCfg where
  choices : List Choice
  defaultChoice : Int
  optional : Bool
  pageSize : Int
deriving DecidableEq

/-- The session `pageSize` of `singleSelect.Render`. -/
def singlePageSize (cfg : SingleCfg) : Int :=
  min cfg.pageSize (cfg.choices.length : Int)

/-- Single-select session state (the loop-local variables of
`singleSelect.Render` plus the receiver field `selectedChoice`). -/
structure SingleState where
  searchQuery : List Nat
  searchMode : Bool
  nav : NavState
  valMessage : List Nat
  selectedChoice : Choice
  interrupted : Bool
deriving DecidableEq

/-- The single-select session state at the initial render: the default
choice is taken verbatim (disabled or not) when its index is in range,
otherwise the zero `Choice`. -/
def singleInit (cfg : SingleCfg) : SingleState :=
  { searchQuery := []
    searchMode := false
    nav := { filteredChoices := cfg.choices, cursorIdx := 0, startIdx := 0,
             endIdx := min (cfg.choices.length : Int) (singlePageSize cfg) }
    valMessage := []
    selectedChoice :=
      if 0 ≤ cfg.defaultChoice ∧ cfg.defaultChoice < (cfg.choices.length : Int) then
        cfg.choices.getD cfg.defaultChoice.toNat zeroChoice
      else zeroChoice
    interrupted := false }

/-- The single-select Space handler: reject on an empty filtered list or
a disabled current choice; clear the selection when the current choice
is already selected by `Value`, otherwise replace it. -/
def singleSpaceKey (s : SingleState) : SingleState :=
  if s.nav.filteredChoices.length = 0 then { s with valMessage := noChoicesAvailableMsg }
  else
    let c := s.nav.filteredChoices.getD s.nav.cursorIdx.toNat zeroChoice
    if c.Disabled then { s with valMessage := disabledChoiceMsg }
    else if s.selectedChoice.Value = c.Value then
      { s with selectedChoice := zeroChoice, valMessage := [] }
    else { s with selectedChoice := c, valMessage := [] }

/-- The single-select Enter handler: when the filtered list is empty or
the selection equals the zero `Choice`, stop only if the prompt is
optional, otherwise set the rejection message; in every other case stop. -/
def singleEnterKey (cfg : SingleCfg) (s : SingleState) : SingleState × Bool :=
  if s.nav.filteredChoices.length = 0 ∨ s.selectedChoice = zeroChoice then
    if cfg.optional then (s, true) else ({ s with valMessage := noSelectionMadeMsg }, false)
  else (s, true)

/-- One dispatch of the `keyboard.Listen` callback of
`singleSelect.Render`. -/
def singleStep (cfg : SingleCfg) (s : SingleState) (k : Key) : SingleState × Bool :=
  match k with
  | Key.ctrlC => ({ s with interrupted := true }, true)
  | Key.up => ({ s with nav := navigateUp (singlePageSize cfg) s.nav }, false)
  | Key.left => ({ s with nav := navigateUp (singlePageSize cfg) s.nav }, false)
  | Key.down => ({ s with nav := navigateDown (singlePageSize cfg) s.nav }, false)
  | Key.right => ({ s with nav := navigateDown (singlePageSize cfg) s.nav }, false)
  | Key.tab => ({ s with searchMode := !s.searchMode }, false)
  | Key.escape => (if s.searchMode then { s with searchMode := false } else s, false)
  | Key.enter => singleEnterKey cfg s
  | Key.space => (singleSpaceKey s, false)
  | Key.backspace =>
    if s.searchMode = true ∧ s.searchQuery ≠ [] then
      let q := s.searchQuery.dropLast
      let f := filterChoices cfg.choices q
      ({ s with searchQuery := q,
                nav := resetCursorAfterFilter (singlePageSize cfg)
                         { s.nav with filteredChoices := f } }, false)
    else (s, false)
  | Key.runeKey rs =>
    match rs with
    | [] => (s, false)
    | r :: _ =>
      if s.searchMode then
        let q := s.searchQuery ++ utf8EncodeChar r
        let f := filterChoices cfg.choices q
        ({ s with searchQuery := q,
                  nav := resetCursorAfterFilter (singlePageSize cfg)
                           { s.nav with filteredChoices := f } }, false)
      else if r = 'j' ∨ r = 'l' then
        ({ s with nav := navigateDown (singlePageSize cfg) s.nav }, false)
      else if r = 'k' ∨ r = 'h' then
        ({ s with nav := navigateUp (singlePageSize cfg) s.nav }, false)
      else (s, false)

/-- The single-select event loop over a finite key list. -/
def runSingle (cfg : SingleCfg) : SingleState → List Key → SingleState × Bool
  | s, [] => (s, false)
  | s, k :: ks =>
    let r := singleStep cfg s k
    if r.2 then (r.1, true) else runSingle cfg r.1 ks

/-- `singleSelect.Render` over a finite key list: terminal-space check,
empty-list check, then the event loop; on a stop, the interrupt error or
the selected choice. -/
def singleRender (cfg : SingleCfg) (d : TermDims) (ks : List Key) :
    RenderResult Choice :=
  if (makeSpace d (9 + singlePageSize cfg)).isSome then
    RenderResult.failed AskyError.terminalTooSmall
  else if cfg.choices.length = 0 then RenderResult.failed AskyError.noSelectionChoices
  else
    let r := runSingle cfg (singleInit cfg) ks
    if r.2 then
      if r.1.interrupted then RenderResult.failed AskyError.interrupted
      else RenderResult.ok r.1.selectedChoice
    else RenderResult.pending

/-- The session-state invariant of the spec: when the filtered list is
empty the cursor and window are collapsed to zero; when it is non-empty
the cursor is in bounds, inside the window, and the window is at most
one page wide. -/
def navInvariant (pageSize : Int) (s : NavState) : Prop :=
  ((s.filteredChoices.length : Int) = 0 →
    s.cursorIdx = 0 ∧ s.startIdx = 0 ∧ s.endIdx = 0) ∧
  (0 < (s.filteredChoices.length : Int) →
    0 ≤ s.cursorIdx ∧ s.cursorIdx < (s.filteredChoices.length : Int) ∧
    0 ≤ s.startIdx ∧ s.startIdx ≤ s.cursorIdx ∧ s.cursorIdx < s.endIdx ∧
    s.endIdx - s.startIdx ≤ pageSize)

/-- Fixture: the choice `{A, "Apple"}` of the spec scenario. -/
def chApple : Choice := ⟨strBytes ['a'], strBytes ['A','p','p','l','e'], false⟩

/-- Fixture: the choice `{B, "Banana"}` of the spec scenario. -/
def chBanana : Choice := ⟨strBytes ['b'], strBytes ['B','a','n','a','n','a'], false⟩

/-- Fixture: the choice `{C, "Cherry"}` of the spec scenario. -/
def chCherry : Choice := ⟨strBytes ['c'], strBytes ['C','h','e','r','r','y'], false⟩

/-- Fixture: a disabled choice. -/
def chDate : Choice := ⟨strBytes ['d'], strBytes ['D','a','t','e'], true⟩

/-- Fixture: an enabled choice whose `Value` is the empty string. -/
def chEmptyVal : Choice := ⟨[], strBytes ['X'], false⟩

/-- Fixture: terminal metrics that pass every size guard used here. -/
def dimsOk : TermDims := ⟨80, 40, false⟩

/-- Fixture: a multi-select configuration with `maxSelectedCount = 1`
but two default-choice indices. -/
def cfgC1 : MultiCfg := ⟨[chApple, chBanana], [0, 1], false, 0, 1, 7⟩

/-- Fixture: a plain two-choice multi-select configuration
(no defaults, no explicit counts, default page size). -/
def cfgMulti2 : MultiCfg := ⟨[chApple, chBanana], [], false, 0, 0, 7⟩

/-- Fixture: a plain two-choice single-select configuration. -/
def cfgSingle2 : SingleCfg := ⟨[chApple, chBanana], -1, false, 10⟩

/-- Fixture: a one-choice single-select configuration whose label does
not contain the letter z. -/
def cfgC3 : SingleCfg := ⟨[chApple], -1, false, 10⟩

/-- Fixture: a two-choice multi-select configuration with page size 0
(`WithPageSize` performs no validation). -/
def cfgC5 : MultiCfg := ⟨[chApple, chBanana], [], false, 0, 0, 0⟩

/-- Fixture: a single-select configuration with an empty choice list. -/
def cfgC6s : SingleCfg := ⟨[], -1, false, 10⟩

/-- Fixture: a multi-select configuration with an empty choice list. -/
def cfgC6m : MultiCfg := ⟨[], [], false, 0, 0, 7⟩

/-- Fixture: a single-select configuration whose default index points
at a disabled choice. -/
def cfgC9s : SingleCfg := ⟨[chApple, chDate], 1, false, 10⟩

/-- Fixture: a multi-select configuration whose default index points at
a disabled choice. -/
def cfgC9m : MultiCfg := ⟨[chApple, chDate], [1], false, 0, 0, 7⟩

/-- Fixture: a single-select configuration containing an enabled choice
with an empty `Value`. -/
def cfgC10 : SingleCfg := ⟨[chBanana, chEmptyVal], -1, false, 10⟩

/-- Fixture: a single-select configuration containing only the
empty-`Value` enabled choice. -/
def cfgC10w : SingleCfg := ⟨[chEmptyVal], -1, false, 10⟩

/-- Fixture: a multi-select session state in search mode with the
two-character ASCII query "ab". -/
def stC8m : MultiState :=
  { multiInit cfgMulti2 with searchMode := true, searchQuery := strBytes ['a','b'] }

/-- Fixture: a single-select session state in search mode with the
two-character ASCII query "ab". -/
def stC8s : SingleState :=
  { singleInit cfgSingle2 with searchMode := true, searchQuery := strBytes ['a','b'] }


theorem leadMatch_iff (sub s : List Nat) : leadMatch sub s = true ↔ sub <+: s := by
  induction sub generalizing s with
  | nil => simp [leadMatch]
  | cons a as ih =>
    cases s with
    | nil => simp [leadMatch]
    | cons b t => simp [leadMatch, List.cons_prefix_cons, ih]

theorem containsSub_iff (s sub : List Nat) : containsSub s sub = true ↔ sub <:+: s := by
  induction s with
  | nil => simp [containsSub, leadMatch_iff]
  | cons b t ih => simp [containsSub, leadMatch_iff, ih, List.infix_cons_iff]

/-- C4. -/
theorem filterChoices_spec :
    (∀ choices : List Choice, filterChoices choices [] = choices) ∧
    (∀ (choices : List Choice) (q : List Nat), (filterChoices choices q).Sublist choices) ∧
    (∀ (choices : List Choice) (q : List Nat) (c : Choice),
      c ∈ filterChoices choices q ↔
        c ∈ choices ∧ (toLowerBytes q) <:+: (toLowerBytes c.Label)) ∧
    filterChoices [chApple, chBanana, chCherry] (strBytes ['a','n']) = [chBanana] := by
  refine ⟨fun choices => by simp [filterChoices], ?_, ?_, by decide⟩
  · intro choices q
    unfold filterChoices
    split
    · exact List.Sublist.refl choices
    · exact List.filter_sublist choices
  · intro choices q c
    unfold filterChoices
    split
    · rename_i hq
      subst hq
      simp [toLowerBytes]
    · simp [List.mem_filter, containsSub_iff]


theorem navInvariant_nonneg {p : Int} {s : NavState} (h : navInvariant p s) :
    0 ≤ s.cursorIdx ∧ 0 ≤ s.startIdx := by
  obtain ⟨h0, h1⟩ := h
  rcases Nat.eq_zero_or_pos s.filteredChoices.length with hz | hz
  · have := h0 (by exact_mod_cast hz)
    omega
  · have := h1 (by exact_mod_cast hz)
    omega

theorem navigateUp_inv (p : Int) (s : NavState) (hp : 1 ≤ p) (h : navInvariant p s) :
    navInvariant p (navigateUp p s) := by
  obtain ⟨f, cur, st, en⟩ := s
  obtain ⟨h0, h1⟩ := h
  simp only [navInvariant, navigateUp] at *
  split_ifs with hc hlt
  · refine ⟨fun hz => ?_, fun hz => ?_⟩
    · have := h0 hz; simp_all <;> omega
    · have := h1 hz; simp_all <;> omega
  · refine ⟨fun hz => ?_, fun hz => ?_⟩
    · have := h0 hz; simp_all <;> omega
    · have := h1 hz; simp_all <;> omega
  · exact ⟨h0, h1⟩

theorem navigateDown_inv (p : Int) (s : NavState) (hp : 1 ≤ p) (h : navInvariant p s) :
    navInvariant p (navigateDown p s) := by
  obtain ⟨f, cur, st, en⟩ := s
  obtain ⟨h0, h1⟩ := h
  simp only [navInvariant, navigateDown] at *
  split_ifs with hc hge
  · refine ⟨fun hz => ?_, fun hz => ?_⟩
    · have := h0 hz; simp_all <;> omega
    · have := h1 hz; simp_all <;> omega
  · refine ⟨fun hz => ?_, fun hz => ?_⟩
    · have := h0 hz; simp_all <;> omega
    · have := h1 hz; simp_all <;> omega
  · exact ⟨h0, h1⟩

theorem resetCursorAfterFilter_inv (p : Int) (s : NavState) (hp : 1 ≤ p)
    (hc : 0 ≤ s.cursorIdx) (hs : 0 ≤ s.startIdx) :
    navInvariant p (resetCursorAfterFilter p s) := by
  obtain ⟨f, cur, st, en⟩ := s
  simp only [resetCursorAfterFilter]
  split_ifs with hz h1 h2 h3 h4 h5 h6 h7 h8 h9
  all_goals simp only [navInvariant] at *
  all_goals refine ⟨fun hzz => ?_, fun hzz => ?_⟩
  all_goals (try simp_all)
  all_goals (try omega)


theorem multiStep_nav_inv (cfg : MultiCfg) (s : MultiState) (k : Key)
    (hp : 1 ≤ multiPageSize cfg) (h : navInvariant (multiPageSize cfg) s.nav) :
    navInvariant (multiPageSize cfg) (multiStep cfg s k).1.nav := by
  obtain ⟨hc, hs⟩ := navInvariant_nonneg h
  cases k with
  | ctrlC => exact h
  | up => exact navigateUp_inv _ _ hp h
  | left => exact navigateUp_inv _ _ hp h
  | down => exact navigateDown_inv _ _ hp h
  | right => exact navigateDown_inv _ _ hp h
  | tab => exact h
  | escape => simp only [multiStep]; split <;> exact h
  | enter => simp only [multiStep]; split <;> exact h
  | space =>
    simp only [multiStep, multiSpaceKey]
    split_ifs <;> exact h
  | backspace =>
    simp only [multiStep]
    split_ifs with hcond
    · exact resetCursorAfterFilter_inv _ _ hp (by simpa using hc) (by simpa using hs)
    · exact h
  | runeKey rs =>
    cases rs with
    | nil => exact h
    | cons r rt =>
      simp only [multiStep]
      split_ifs <;>
        first
          | exact resetCursorAfterFilter_inv _ _ hp (by simpa using hc) (by simpa using hs)
          | exact navigateDown_inv _ _ hp h
          | exact navigateUp_inv _ _ hp h
          | exact h

theorem runMulti_nav_inv (cfg : MultiCfg) (s : MultiState) (ks : List Key)
    (hp : 1 ≤ multiPageSize cfg) (h : navInvariant (multiPageSize cfg) s.nav) :
    navInvariant (multiPageSize cfg) ((runMulti cfg s ks).1.nav) := by
  induction ks generalizing s with
  | nil => exact h
  | cons k ks ih =>
    by_cases hstop : (multiStep cfg s k).2
    · simp [runMulti, hstop]
      exact multiStep_nav_inv cfg s k hp h
    · simp [runMulti, hstop]
      exact ih _ (multiStep_nav_inv cfg s k hp h)

theorem multiInit_nav_inv (cfg : MultiCfg) (hp : 1 ≤ cfg.pageSize)
    (hne : cfg.choices ≠ []) : navInvariant (multiPageSize cfg) (multiInit cfg).nav := by
  have hlen : 0 < cfg.choices.length := List.length_pos.mpr hne
  simp only [multiInit, navInvariant, multiPageSize]
  constructor <;> intro h <;> simp_all <;> omega

theorem singleStep_nav_inv (cfg : SingleCfg) (s : SingleState) (k : Key)
    (hp : 1 ≤ singlePageSize cfg) (h : navInvariant (singlePageSize cfg) s.nav) :
    navInvariant (singlePageSize cfg) (singleStep cfg s k).1.nav := by
  obtain ⟨hc, hs⟩ := navInvariant_nonneg h
  cases k with
  | ctrlC => exact h
  | up => exact navigateUp_inv _ _ hp h
  | left => exact navigateUp_inv _ _ hp h
  | down => exact navigateDown_inv _ _ hp h
  | right => exact navigateDown_inv _ _ hp h
  | tab => exact h
  | escape => simp only [singleStep]; split <;> exact h
  | enter =>
    simp only [singleStep, singleEnterKey]
    split_ifs <;> exact h
  | space =>
    simp only [singleStep, singleSpaceKey]
    split_ifs <;> exact h
  | backspace =>
    simp only [singleStep]
    split_ifs with hcond
    · exact resetCursorAfterFilter_inv _ _ hp (by simpa using hc) (by simpa using hs)
    · exact h
  | runeKey rs =>
    cases rs with
    | nil => exact h
    | cons r rt =>
      simp only [singleStep]
      split_ifs <;>
        first
          | exact resetCursorAfterFilter_inv _ _ hp (by simpa using hc) (by simpa using hs)
          | exact navigateDown_inv _ _ hp h
          | exact navigateUp_inv _ _ hp h
          | exact h

theorem runSingle_nav_inv (cfg : SingleCfg) (s : SingleState) (ks : List Key)
    (hp : 1 ≤ singlePageSize cfg) (h : navInvariant (singlePageSize cfg) s.nav) :
    navInvariant (singlePageSize cfg) ((runSingle cfg s ks).1.nav) := by
  induction ks generalizing s with
  | nil => exact h
  | cons k ks ih =>
    by_cases hstop : (singleStep cfg s k).2
    · simp [runSingle, hstop]
      exact singleStep_nav_inv cfg s k hp h
    · simp [runSingle, hstop]
      exact ih _ (singleStep_nav_inv cfg s k hp h)

theorem singleInit_nav_inv (cfg : SingleCfg) (hp : 1 ≤ cfg.pageSize)
    (hne : cfg.choices ≠ []) : navInvariant (singlePageSize cfg) (singleInit cfg).nav := by
  have hlen : 0 < cfg.choices.length := List.length_pos.mpr hne
  simp only [singleInit, navInvariant, singlePageSize]
  constructor <;> intro h <;> simp_all <;> omega

/-- C5 amended: provided the configured page size is at least 1, every
state reached from the initial session state by any sequence of key
events (covering all navigation and filter-recompute steps) satisfies
the cursor/window invariant, in both variants. -/
theorem session_nav_invariant (cfgm : MultiCfg) (cfgs : SingleCfg)
    (hpm : 1 ≤ cfgm.pageSize) (hnem : cfgm.choices ≠ [])
    (hps : 1 ≤ cfgs.pageSize) (hnes : cfgs.choices ≠ [])
    (ksm kss : List Key) :
    navInvariant (multiPageSize cfgm) ((runMulti cfgm (multiInit cfgm) ksm).1.nav) ∧
    navInvariant (singlePageSize cfgs) ((runSingle cfgs (singleInit cfgs) kss).1.nav) := by
  have h1m : 1 ≤ multiPageSize cfgm := by
    have := List.length_pos.mpr hnem
    simp only [multiPageSize]
    omega
  have h1s : 1 ≤ singlePageSize cfgs := by
    have := List.length_pos.mpr hnes
    simp only [singlePageSize]
    omega
  exact ⟨runMulti_nav_inv _ _ _ h1m (multiInit_nav_inv _ hpm hnem),
         runSingle_nav_inv _ _ _ h1s (singleInit_nav_inv _ hps hnes)⟩

/-- C5 witness: the amended invariant instantiated on a concrete
two-choice session after one Move-next event. -/
theorem session_nav_invariant_witness :
    (1 : Int) ≤ cfgMulti2.pageSize ∧
    navInvariant (multiPageSize cfgMulti2)
      ((runMulti cfgMulti2 (multiInit cfgMulti2) [Key.down]).1.nav) ∧
    navInvariant (singlePageSize cfgSingle2)
      ((runSingle cfgSingle2 (singleInit cfgSingle2) [Key.down]).1.nav) :=
  ⟨by decide,
   (session_nav_invariant cfgMulti2 cfgSingle2 (by decide) (by decide) (by decide)
      (by decide) [Key.down] [Key.down]).1,
   (session_nav_invariant cfgMulti2 cfgSingle2 (by decide) (by decide) (by decide)
      (by decide) [Key.down] [Key.down]).2⟩

/-- C5 counterexample: with `WithPageSize(0)` (no validation in the
builder), one Move-next event yields `cursorIdx = 1` but `startIdx = 2`
on a non-empty filtered list, violating `start <= cursorIndex < end`. -/
theorem nav_invariant_violated_pageSize_zero :
    (runMulti cfgC5 (multiInit cfgC5) [Key.down]).1.nav.filteredChoices.length = 2 ∧
    (runMulti cfgC5 (multiInit cfgC5) [Key.down]).1.nav.cursorIdx = 1 ∧
    (runMulti cfgC5 (multiInit cfgC5) [Key.down]).1.nav.startIdx = 2 ∧
    ¬ navInvariant (multiPageSize cfgC5)
        ((runMulti cfgC5 (multiInit cfgC5) [Key.down]).1.nav) := by
  refine ⟨by decide, by decide, by decide, fun h => ?_⟩
  have h2 := h.2 (by decide)
  have e1 : (runMulti cfgC5 (multiInit cfgC5) [Key.down]).1.nav.cursorIdx = 1 := by decide
  have e2 : (runMulti cfgC5 (multiInit cfgC5) [Key.down]).1.nav.startIdx = 2 := by decide
  omega


theorem isSelected_eq_false_iff (sel : List Choice) (c : Choice) :
    isSelected sel c = false ↔ ∀ x ∈ sel, x.Value ≠ c.Value := by
  simp [isSelected, List.any_eq_true]

theorem removeFirstByValue_none_iff (sel : List Choice) (v : List Nat) :
    removeFirstByValue sel v = none ↔ ∀ x ∈ sel, x.Value ≠ v := by
  induction sel with
  | nil => simp [removeFirstByValue]
  | cons x t ih =>
    simp only [removeFirstByValue]
    split_ifs with hx
    · simp [hx]
    · cases hrt : removeFirstByValue t v <;> simp [hrt, hx] <;> simp [hrt] at ih <;>
        tauto

theorem removeFirstByValue_some_length (sel : List Choice) (v : List Nat)
    (rest : List Choice) (h : removeFirstByValue sel v = some rest) :
    rest.length + 1 = sel.length := by
  induction sel generalizing rest with
  | nil => simp [removeFirstByValue] at h
  | cons x t ih =>
    simp only [removeFirstByValue] at h
    split_ifs at h with hx
    · cases h
      simp
    · cases hrt : removeFirstByValue t v with
      | none => rw [hrt] at h; simp at h
      | some r =>
        rw [hrt] at h
        simp at h
        have := ih r hrt
        simp [← h]
        omega

theorem multiSpaceKey_count (cfg : MultiCfg) (s : MultiState)
    (h : (s.selectedChoices.length : Int) ≤ multiMaxAllowed cfg) :
    ((multiSpaceKey cfg s).selectedChoices.length : Int) ≤ multiMaxAllowed cfg := by
  simp only [multiSpaceKey]
  split_ifs with h1 h2 h3 <;> try simpa using h
  all_goals {
    simp only []
    set c := s.nav.filteredChoices.getD s.nav.cursorIdx.toNat zeroChoice with hc
    simp only [toggleSelection]
    cases hrem : removeFirstByValue s.selectedChoices c.Value with
    | some rest =>
      simp only [hrem]
      have := removeFirstByValue_some_length _ _ _ hrem
      simp_all
      omega
    | none =>
      simp only [hrem]
      have hnotsel : isSelected s.selectedChoices c = false :=
        (isSelected_eq_false_iff _ _).mpr ((removeFirstByValue_none_iff _ _).mp hrem)
      split_ifs with hguard
      · have hlt : (s.selectedChoices.length : Int) < multiMaxAllowed cfg := by
          by_contra hge
          exact h3 ⟨hnotsel, by omega⟩
        simp
        omega
      · simpa using h
  }

theorem multiStep_count (cfg : MultiCfg) (s : MultiState) (k : Key)
    (h : (s.selectedChoices.length : Int) ≤ multiMaxAllowed cfg) :
    (((multiStep cfg s k).1.selectedChoices.length : Int) ≤ multiMaxAllowed cfg) := by
  cases k with
  | space => exact multiSpaceKey_count cfg s h
  | escape => simp only [multiStep]; split <;> simpa using h
  | enter => simp only [multiStep]; split_ifs <;> simpa using h
  | backspace => simp only [multiStep]; split_ifs <;> simpa using h
  | runeKey rs =>
    cases rs with
    | nil => exact h
    | cons r rt => simp only [multiStep]; split_ifs <;> simpa using h
  | _ => exact h

/-- C1 amended: the Space handler together with `toggleSelection` can
never push the selected count above `maxAllowed`, so along every key
sequence the bound is preserved from any state that satisfies it (in
particular from the initial state of any configuration without default
choices); only the unchecked default-choice initialization can break it. -/
theorem multi_selected_count_le_maxAllowed (cfg : MultiCfg) (s : MultiState)
    (ks : List Key) (h : (s.selectedChoices.length : Int) ≤ multiMaxAllowed cfg) :
    (((runMulti cfg s ks).1.selectedChoices.length : Int) ≤ multiMaxAllowed cfg) := by
  induction ks generalizing s with
  | nil => exact h
  | cons k ks ih =>
    by_cases hstop : (multiStep cfg s k).2
    · simp [runMulti, hstop]
      exact multiStep_count cfg s k h
    · simp [runMulti, hstop]
      exact ih _ (multiStep_count cfg s k h)

/-- C1 witness: the bound instantiated on a concrete default-free
two-choice session over a toggle/navigate/toggle/confirm key sequence. -/
theorem multi_selected_count_le_maxAllowed_witness :
    ((multiInit cfgMulti2).selectedChoices.length : Int) ≤ multiMaxAllowed cfgMulti2 ∧
    (((runMulti cfgMulti2 (multiInit cfgMulti2)
        [Key.space, Key.down, Key.space, Key.enter]).1.selectedChoices.length : Int) ≤
      multiMaxAllowed cfgMulti2) :=
  ⟨by decide,
   multi_selected_count_le_maxAllowed cfgMulti2 (multiInit cfgMulti2)
     [Key.space, Key.down, Key.space, Key.enter] (by decide)⟩

/-- C1 counterexample: with `maxSelectedCount = 1` and default indices
`[0, 1]`, the initial selection built by `multiSelect.Render` already
contains 2 choices, exceeding `maxAllowed = 1`. -/
theorem multi_default_init_exceeds_maxAllowed :
    multiMaxAllowed cfgC1 = 1 ∧ ((multiInit cfgC1).selectedChoices.length : Int) = 2 := by
  decide


theorem removeFirstByValue_some_spec (sel : List Choice) (v : List Nat)
    (rest : List Choice) (h : removeFirstByValue sel v = some rest) :
    ∃ l1 x l2, sel = l1 ++ x :: l2 ∧ x.Value = v ∧ (∀ y ∈ l1, y.Value ≠ v) ∧
      rest = l1 ++ l2 := by
  induction sel generalizing rest with
  | nil => simp [removeFirstByValue] at h
  | cons a t ih =>
    simp only [removeFirstByValue] at h
    split_ifs at h with ha
    · cases h
      exact ⟨[], a, t, by simp, ha, by simp, by simp⟩
    · cases hrt : removeFirstByValue t v with
      | none => rw [hrt] at h; simp at h
      | some r =>
        rw [hrt] at h
        simp at h
        obtain ⟨l1, x, l2, ht, hx, hl1, hr⟩ := ih r hrt
        refine ⟨a :: l1, x, l2, by simp [ht], hx, ?_, by simp [← h, hr]⟩
        intro y hy
        rcases List.mem_cons.mp hy with rfl | hy
        · exact ha
        · exact hl1 y hy

theorem removeFirstByValue_append_last (sel : List Choice) (c : Choice)
    (h : ∀ x ∈ sel, x.Value ≠ c.Value) :
    removeFirstByValue (sel ++ [c]) c.Value = some sel := by
  induction sel with
  | nil => simp [removeFirstByValue]
  | cons a t ih =>
    have ha := h a (by simp)
    have ht := ih (fun x hx => h x (by simp [hx]))
    simp [removeFirstByValue, ha, ht]

theorem multiMaxAllowed_cases (cfg : MultiCfg) (hm : 0 ≤ cfg.maxSelectedCount) :
    (cfg.maxSelectedCount = 0 ∧ multiMaxAllowed cfg = (cfg.choices.length : Int)) ∨
    (0 < cfg.maxSelectedCount ∧ multiMaxAllowed cfg = cfg.maxSelectedCount) := by
  by_cases h0 : cfg.maxSelectedCount = 0
  · exact Or.inl ⟨h0, by simp [multiMaxAllowed, h0]⟩
  · refine Or.inr ⟨by omega, ?_⟩
    simp only [multiMaxAllowed]
    rw [max_eq_left hm]
    simp [h0]

theorem multiSpaceKey_nav (cfg : MultiCfg) (s : MultiState) :
    (multiSpaceKey cfg s).nav = s.nav := by
  simp only [multiSpaceKey]
  split_ifs <;> rfl

theorem multiSpaceKey_toggles (cfg : MultiCfg) (s : MultiState)
    (hlen : s.nav.filteredChoices.length ≠ 0)
    (hdis : (s.nav.filteredChoices.getD s.nav.cursorIdx.toNat zeroChoice).Disabled = false)
    (hcond : ¬(isSelected s.selectedChoices
        (s.nav.filteredChoices.getD s.nav.cursorIdx.toNat zeroChoice) = false ∧
        (s.selectedChoices.length : Int) ≥ multiMaxAllowed cfg)) :
    (multiSpaceKey cfg s).selectedChoices =
      toggleSelection cfg.maxSelectedCount s.selectedChoices
        (s.nav.filteredChoices.getD s.nav.cursorIdx.toNat zeroChoice) := by
  simp only [multiSpaceKey]
  split_ifs <;> simp_all

theorem multiSpaceKey_rejected (cfg : MultiCfg) (s : MultiState)
    (hcond : isSelected s.selectedChoices
        (s.nav.filteredChoices.getD s.nav.cursorIdx.toNat zeroChoice) = false ∧
        (s.selectedChoices.length : Int) ≥ multiMaxAllowed cfg) :
    (multiSpaceKey cfg s).selectedChoices = s.selectedChoices := by
  simp only [multiSpaceKey]
  split_ifs <;> simp_all

theorem multi_double_space (cfg : MultiCfg) (s : MultiState)
    (hm : 0 ≤ cfg.maxSelectedCount)
    (hlen : s.nav.filteredChoices.length ≠ 0)
    (hdis : (s.nav.filteredChoices.getD s.nav.cursorIdx.toNat zeroChoice).Disabled = false)
    (hnd : (s.selectedChoices.map (fun x => x.Value)).Nodup)
    (hle : (s.selectedChoices.length : Int) ≤ multiMaxAllowed cfg) :
    ((multiSpaceKey cfg (multiSpaceKey cfg s)).selectedChoices.map
        (fun x => x.Value)).Perm (s.selectedChoices.map (fun x => x.Value)) := by
  set c := s.nav.filteredChoices.getD s.nav.cursorIdx.toNat zeroChoice with hc
  have hnav1 : (multiSpaceKey cfg s).nav = s.nav := multiSpaceKey_nav cfg s
  by_cases hsel : isSelected s.selectedChoices c = true
  · -- already selected: remove then re-add
    obtain ⟨rest, hrem⟩ : ∃ rest, removeFirstByValue s.selectedChoices c.Value = some rest := by
      cases hr : removeFirstByValue s.selectedChoices c.Value with
      | none =>
        have := (isSelected_eq_false_iff s.selectedChoices c).mpr
          ((removeFirstByValue_none_iff _ _).mp hr)
        simp [this] at hsel
      | some r => exact ⟨r, rfl⟩
    obtain ⟨l1, x, l2, hsplit, hxv, hl1, hrest⟩ :=
      removeFirstByValue_some_spec _ _ _ hrem
    have e1 : (multiSpaceKey cfg s).selectedChoices = rest := by
      rw [multiSpaceKey_toggles cfg s hlen hdis
        (fun hcon => by rw [← hc] at hcon; simp [hsel] at hcon)]
      rw [← hc]
      simp [toggleSelection, hrem]
    have hlenrest : rest.length + 1 = s.selectedChoices.length :=
      removeFirstByValue_some_length _ _ _ hrem
    have hvfree : ∀ y ∈ rest, y.Value ≠ c.Value := by
      rw [hrest]
      have hnd2 : ((l1 ++ x :: l2).map (fun x => x.Value)).Nodup := by rw [← hsplit]; exact hnd
      simp only [List.map_append, List.map_cons] at hnd2
      have hnotin : x.Value ∉ l2.map (fun y => y.Value) :=
        (List.nodup_cons.mp (List.nodup_append.mp hnd2).2.1).1
      intro y hy
      rcases List.mem_append.mp hy with hy | hy
      · exact hl1 y hy
      · intro hcontra
        exact hnotin (by rw [hxv, ← hcontra]; exact List.mem_map_of_mem _ hy)
    have hsel1 : isSelected rest c = false := (isSelected_eq_false_iff _ _).mpr hvfree
    have e2 : (multiSpaceKey cfg (multiSpaceKey cfg s)).selectedChoices = rest ++ [c] := by
      rw [multiSpaceKey_toggles cfg (multiSpaceKey cfg s)
        (by rw [hnav1]; exact hlen)
        (by rw [hnav1]; exact hdis)
        ?hcond]
      case hcond =>
        rw [hnav1, ← hc, e1]
        rintro ⟨-, hge⟩
        omega
      rw [hnav1, ← hc, e1]
      simp only [toggleSelection]
      rw [(removeFirstByValue_none_iff rest c.Value).mpr hvfree]
      rcases multiMaxAllowed_cases cfg hm with ⟨h0, _⟩ | ⟨hpos, hA⟩
      · rw [if_pos (Or.inl h0)]
      · rw [if_pos (Or.inr (by omega))]
    rw [e2, hrest, hsplit]
    simp only [List.map_append, List.map_cons, ← hxv]
    exact (List.perm_append_singleton _ _).trans List.perm_middle.symm
  · -- not selected
    have hself : isSelected s.selectedChoices c = false := by
      cases h : isSelected s.selectedChoices c
      · rfl
      · exact absurd h hsel
    have hvfree0 : ∀ y ∈ s.selectedChoices, y.Value ≠ c.Value :=
      (isSelected_eq_false_iff _ _).mp hself
    by_cases hge : (s.selectedChoices.length : Int) ≥ multiMaxAllowed cfg
    · have e1 : (multiSpaceKey cfg s).selectedChoices = s.selectedChoices :=
        multiSpaceKey_rejected cfg s ⟨by rw [← hc]; exact hself, hge⟩
      have e2 : (multiSpaceKey cfg (multiSpaceKey cfg s)).selectedChoices
          = s.selectedChoices := by
        rw [multiSpaceKey_rejected cfg (multiSpaceKey cfg s)
          ⟨by rw [hnav1, ← hc, e1]; exact hself, by rw [e1]; exact hge⟩]
        exact e1
      rw [e2]
    · have e1 : (multiSpaceKey cfg s).selectedChoices = s.selectedChoices ++ [c] := by
        rw [multiSpaceKey_toggles cfg s hlen hdis (by rintro ⟨-, h⟩; omega)]
        rw [← hc]
        simp only [toggleSelection]
        rw [(removeFirstByValue_none_iff _ c.Value).mpr hvfree0]
        rcases multiMaxAllowed_cases cfg hm with ⟨h0, _⟩ | ⟨hpos, hA⟩
        · rw [if_pos (Or.inl h0)]
        · rw [if_pos (Or.inr (by omega))]
      have hselapp : isSelected (s.selectedChoices ++ [c]) c = true := by
        simp [isSelected]
      have e2 : (multiSpaceKey cfg (multiSpaceKey cfg s)).selectedChoices
          = s.selectedChoices := by
        rw [multiSpaceKey_toggles cfg (multiSpaceKey cfg s)
          (by rw [hnav1]; exact hlen)
          (by rw [hnav1]; exact hdis)
          (by rw [hnav1, ← hc, e1]; simp [hselapp])]
        rw [hnav1, ← hc, e1]
        simp only [toggleSelection]
        rw [removeFirstByValue_append_last _ _ hvfree0]
      rw [e2]


theorem singleSpaceKey_nav (s : SingleState) : (singleSpaceKey s).nav = s.nav := by
  simp only [singleSpaceKey]
  split_ifs <;> rfl

theorem singleSpaceKey_clears (s : SingleState)
    (hlen : s.nav.filteredChoices.length ≠ 0)
    (hdis : (s.nav.filteredChoices.getD s.nav.cursorIdx.toNat zeroChoice).Disabled = false)
    (heq : s.selectedChoice.Value =
      (s.nav.filteredChoices.getD s.nav.cursorIdx.toNat zeroChoice).Value) :
    (singleSpaceKey s).selectedChoice = zeroChoice := by
  simp only [singleSpaceKey]
  split_ifs <;> simp_all

theorem singleSpaceKey_selects (s : SingleState)
    (hlen : s.nav.filteredChoices.length ≠ 0)
    (hdis : (s.nav.filteredChoices.getD s.nav.cursorIdx.toNat zeroChoice).Disabled = false)
    (hne : s.selectedChoice.Value ≠
      (s.nav.filteredChoices.getD s.nav.cursorIdx.toNat zeroChoice).Value) :
    (singleSpaceKey s).selectedChoice =
      s.nav.filteredChoices.getD s.nav.cursorIdx.toNat zeroChoice := by
  simp only [singleSpaceKey]
  split_ifs <;> simp_all

theorem single_double_space (s : SingleState)
    (hlen : s.nav.filteredChoices.length ≠ 0)
    (hdis : (s.nav.filteredChoices.getD s.nav.cursorIdx.toNat zeroChoice).Disabled = false)
    (hvs : s.selectedChoice.Value =
             (s.nav.filteredChoices.getD s.nav.cursorIdx.toNat zeroChoice).Value ∨
           s.selectedChoice.Value = []) :
    (singleSpaceKey (singleSpaceKey s)).selectedChoice.Value = s.selectedChoice.Value := by
  set c := s.nav.filteredChoices.getD s.nav.cursorIdx.toNat zeroChoice with hc
  have hnav : (singleSpaceKey s).nav = s.nav := singleSpaceKey_nav s
  by_cases heq : s.selectedChoice.Value = c.Value
  · have e1 : (singleSpaceKey s).selectedChoice = zeroChoice :=
      singleSpaceKey_clears s hlen hdis (by rw [← hc] at *; exact heq)
    by_cases hcz : c.Value = []
    · have e2 : (singleSpaceKey (singleSpaceKey s)).selectedChoice = zeroChoice := by
        refine singleSpaceKey_clears _ (by rw [hnav]; exact hlen) (by rw [hnav]; exact hdis) ?_
        rw [hnav, ← hc, e1]
        exact hcz.symm
      rw [e2]
      rw [heq, hcz]
      rfl
    · have e2 : (singleSpaceKey (singleSpaceKey s)).selectedChoice = c := by
        have h3 := singleSpaceKey_selects (singleSpaceKey s)
          (by rw [hnav]; exact hlen) (by rw [hnav]; exact hdis)
          (by rw [hnav, ← hc, e1]; exact fun h => hcz h.symm)
        rw [hnav, ← hc] at h3
        exact h3
      rw [e2, heq]
  · have hz : s.selectedChoice.Value = [] := by tauto
    have e1 : (singleSpaceKey s).selectedChoice = c := by
      have := singleSpaceKey_selects s hlen hdis (by rw [← hc]; exact heq)
      rw [← hc] at this
      exact this
    have e2 : (singleSpaceKey (singleSpaceKey s)).selectedChoice = zeroChoice := by
      refine singleSpaceKey_clears _ (by rw [hnav]; exact hlen) (by rw [hnav]; exact hdis) ?_
      rw [hnav, ← hc, e1]
    rw [e2, hz]
    rfl


/-- C2 amended: a Select-toggle pair on the same non-disabled item under
the cursor restores the selection in both variants with provisos the
code imposes. Multi-select: from a state whose selected values are
distinct and whose count is within `maxAllowed` (and a builder-produced
non-negative `maxSelectedCount`), the selection is restored as a
multiset of values (the re-added item moves to the end of the list).
Single-select: the selection (compared by `Value`, which is how the
toggle compares) is restored exactly when the prior selection was empty
by value or was the toggled item itself; when a different choice was
selected beforehand the pair instead clears the selection. -/
theorem double_toggle_restores_selection
    (cfgm : MultiCfg) (sm : MultiState) (cfgs : SingleCfg) (ss : SingleState)
    (hm : 0 ≤ cfgm.maxSelectedCount)
    (hlm : sm.nav.filteredChoices.length ≠ 0)
    (hdm : (sm.nav.filteredChoices.getD sm.nav.cursorIdx.toNat zeroChoice).Disabled = false)
    (hnd : (sm.selectedChoices.map (fun x => x.Value)).Nodup)
    (hle : (sm.selectedChoices.length : Int) ≤ multiMaxAllowed cfgm)
    (hls : ss.nav.filteredChoices.length ≠ 0)
    (hds : (ss.nav.filteredChoices.getD ss.nav.cursorIdx.toNat zeroChoice).Disabled = false)
    (hvs : ss.selectedChoice.Value =
             (ss.nav.filteredChoices.getD ss.nav.cursorIdx.toNat zeroChoice).Value ∨
           ss.selectedChoice.Value = []) :
    (((multiStep cfgm (multiStep cfgm sm Key.space).1 Key.space).1.selectedChoices.map
        (fun x => x.Value)).Perm (sm.selectedChoices.map (fun x => x.Value))) ∧
    (singleStep cfgs (singleStep cfgs ss Key.space).1 Key.space).1.selectedChoice.Value =
      ss.selectedChoice.Value :=
  ⟨multi_double_space cfgm sm hm hlm hdm hnd hle,
   single_double_space ss hls hds hvs⟩

/-- C2 witness: the amended statement instantiated on fresh two-choice
sessions of both variants (cursor on the first, enabled choice; empty
initial selection). -/
theorem double_toggle_restores_selection_witness :
    (((multiStep cfgMulti2 (multiStep cfgMulti2 (multiInit cfgMulti2) Key.space).1
        Key.space).1.selectedChoices.map (fun x => x.Value)).Perm
      ((multiInit cfgMulti2).selectedChoices.map (fun x => x.Value))) ∧
    (singleStep cfgSingle2 (singleStep cfgSingle2 (singleInit cfgSingle2) Key.space).1
        Key.space).1.selectedChoice.Value = (singleInit cfgSingle2).selectedChoice.Value :=
  double_toggle_restores_selection cfgMulti2 (multiInit cfgMulti2) cfgSingle2
    (singleInit cfgSingle2) (by decide) (by decide) (by decide) (by decide) (by decide)
    (by decide) (by decide) (Or.inr (by decide))

/-- C2 counterexample: in the single-select variant, with Apple already
selected and the cursor on the enabled choice Banana, pressing
Select-toggle twice does not restore the prior selection: it ends with
no selection (the first press replaces Apple by Banana, the second
clears). The state is reached from the initial state by Space, Down. -/
theorem single_double_toggle_not_restored :
    (runSingle cfgSingle2 (singleInit cfgSingle2)
      [Key.space, Key.down]).1.selectedChoice = chApple ∧
    ((runSingle cfgSingle2 (singleInit cfgSingle2) [Key.space, Key.down]).1.nav.filteredChoices.getD
      (runSingle cfgSingle2 (singleInit cfgSingle2)
        [Key.space, Key.down]).1.nav.cursorIdx.toNat zeroChoice) = chBanana ∧
    chBanana.Disabled = false ∧ chApple ≠ chBanana ∧
    (runSingle cfgSingle2 (singleInit cfgSingle2)
      [Key.space, Key.down, Key.space, Key.space]).1.selectedChoice ≠ chApple := by
  decide


/-- C3 amended: the single-select Enter handler terminates the loop iff
the filtered list is non-empty and the selection differs from the zero
`Choice`, or the prompt is optional; it never changes the selection
(so a stop returns the current selection, zero-valued when nothing is
selected); and it sets "No selection made (required)" exactly when it
rejects, i.e. when the filtered list is empty or nothing is selected
and the prompt is not optional — so a Confirm with a selection made but
a search filter that currently matches nothing is rejected. -/
theorem single_confirm_characterization (cfg : SingleCfg) (s : SingleState) :
    ((singleStep cfg s Key.enter).2 = true ↔
      (if s.nav.filteredChoices.length = 0 ∨ s.selectedChoice = zeroChoice
       then cfg.optional = true else True)) ∧
    (singleStep cfg s Key.enter).1.selectedChoice = s.selectedChoice ∧
    (singleStep cfg s Key.enter).1.valMessage =
      (if (s.nav.filteredChoices.length = 0 ∨ s.selectedChoice = zeroChoice) ∧
          cfg.optional = false
       then noSelectionMadeMsg else s.valMessage) := by
  simp only [singleStep, singleEnterKey]
  split_ifs with h1 h2 <;> simp_all

/-- C3 counterexample: select Apple, search for "z" (filtering the list
to empty), then Confirm: the item Apple is still selected, yet Confirm
is rejected with "No selection made (required)" and the loop continues,
contradicting "whenever an item is selected, regardless of the current
search filter, Confirm terminates". -/
theorem single_confirm_rejected_despite_selection :
    (runSingle cfgC3 (singleInit cfgC3)
      [Key.space, Key.tab, Key.runeKey ['z'], Key.enter]).1.selectedChoice = chApple ∧
    (runSingle cfgC3 (singleInit cfgC3)
      [Key.space, Key.tab, Key.runeKey ['z'], Key.enter]).1.nav.filteredChoices = [] ∧
    cfgC3.optional = false ∧ chApple ≠ zeroChoice ∧
    (runSingle cfgC3 (singleInit cfgC3)
      [Key.space, Key.tab, Key.runeKey ['z'], Key.enter]).2 = false ∧
    (runSingle cfgC3 (singleInit cfgC3)
      [Key.space, Key.tab, Key.runeKey ['z'], Key.enter]).1.valMessage =
      noSelectionMadeMsg := by
  decide

/-- C6 amended: with an empty configured choice list, both Render
variants fail with `NoChoices` before processing any key event,
regardless of the key events and the other configuration fields,
provided the terminal passes the size guard that runs first; with an
undersized terminal the `TerminalTooSmall` error takes precedence. -/
theorem render_empty_choices (cfgs : SingleCfg) (cfgm : MultiCfg) (d1 d2 : TermDims)
    (ks1 ks2 : List Key) (h1 : cfgs.choices = []) (h2 : cfgm.choices = [])
    (hd1 : ¬(d1.height < 9 + singlePageSize cfgs) ∧ ¬(d1.width < 50))
    (hd2 : ¬(d2.height < 9 + multiPageSize cfgm) ∧ ¬(d2.width < 50)) :
    singleRender cfgs d1 ks1 = RenderResult.failed AskyError.noSelectionChoices ∧
    multiRender cfgm d2 ks2 = RenderResult.failed AskyError.noSelectionChoices := by
  have m1 : makeSpace d1 (9 + singlePageSize cfgs) = none := by
    unfold makeSpace
    rw [if_neg]
    push_neg
    exact ⟨by omega, by omega⟩
  have m2 : makeSpace d2 (9 + multiPageSize cfgm) = none := by
    unfold makeSpace
    rw [if_neg]
    push_neg
    exact ⟨by omega, by omega⟩
  constructor
  · simp [singleRender, m1, h1]
  · simp [multiRender, m2, h2]

/-- C6 witness: both entry checks on concrete empty-choice
configurations with an adequately sized terminal. -/
theorem render_empty_choices_witness :
    singleRender cfgC6s dimsOk [] = RenderResult.failed AskyError.noSelectionChoices ∧
    multiRender cfgC6m dimsOk [] = RenderResult.failed AskyError.noSelectionChoices :=
  render_empty_choices cfgC6s cfgC6m dimsOk dimsOk [] [] (by decide) (by decide)
    ⟨by decide, by decide⟩ ⟨by decide, by decide⟩

/-- C6 counterexample: with an empty choice list but a 60x5 terminal,
both variants fail with `TerminalTooSmall`, not `NoChoices`: the
terminal-size guard runs first, so the claimed "regardless of terminal
size" fails. -/
theorem render_empty_choices_terminal_precedence :
    singleRender cfgC6s ⟨60, 5, false⟩ [] = RenderResult.failed AskyError.terminalTooSmall ∧
    multiRender cfgC6m ⟨60, 5, false⟩ [] = RenderResult.failed AskyError.terminalTooSmall ∧
    AskyError.terminalTooSmall ≠ AskyError.noSelectionChoices ∧
    cfgC6s.choices = [] ∧ cfgC6m.choices = [] := by
  decide

/-- C7 amended: the 80-column fallback exists only in the banner and
progress-bar width computations (the banner on error or non-positive
width, the progress bar on non-positive width only); the selection
selection engine guard `makeSpace` performs no fallback: it ignores the error
value entirely and returns `TerminalTooSmall` whenever the raw width is
below 50 (or the raw height below the requested lines). -/
theorem term_width_fallback (d1 d2 d3 : TermDims) (lines : Int)
    (h1 : d1.err = true ∨ d1.width ≤ 0) (h2 : d2.width ≤ 0) (h3 : d3.width < 50) :
    padLineTermWidth d1 = 80 ∧ progressTermWidth d2 = 80 ∧
    makeSpace d3 lines = some AskyError.terminalTooSmall ∧
    (∀ e : Bool, makeSpace ⟨d3.width, d3.height, e⟩ lines = makeSpace d3 lines) := by
  refine ⟨by simp [padLineTermWidth, h1], by simp [progressTermWidth, h2], ?_, ?_⟩
  · unfold makeSpace
    rw [if_pos (Or.inr h3)]
  · intro e
    rfl

/-- C7 witness: the fallback and no-fallback behaviours at concrete
metrics (an errored call reporting width 0 on a 100-row terminal). -/
theorem term_width_fallback_witness :
    padLineTermWidth ⟨0, 100, true⟩ = 80 ∧ progressTermWidth ⟨0, 100, true⟩ = 80 ∧
    makeSpace ⟨0, 100, true⟩ 9 = some AskyError.terminalTooSmall :=
  ⟨(term_width_fallback ⟨0, 100, true⟩ ⟨0, 100, true⟩ ⟨0, 100, true⟩ 9 (Or.inl rfl)
      (by decide) (by decide)).1,
   (term_width_fallback ⟨0, 100, true⟩ ⟨0, 100, true⟩ ⟨0, 100, true⟩ 9 (Or.inl rfl)
      (by decide) (by decide)).2.1,
   (term_width_fallback ⟨0, 100, true⟩ ⟨0, 100, true⟩ ⟨0, 100, true⟩ 9 (Or.inl rfl)
      (by decide) (by decide)).2.2.1⟩

/-- C7 counterexample: when the metrics call errors (width reported 0)
on a 100-row terminal, `makeSpace` returns `TerminalTooSmall` instead of
falling back to 80 columns — with the same raw metrics but width 80 the
guard passes, so the failure is exactly the absent fallback. -/
theorem makeSpace_no_fallback :
    makeSpace ⟨0, 100, true⟩ 9 = some AskyError.terminalTooSmall ∧
    makeSpace ⟨80, 100, true⟩ 9 = none := by
  decide


theorem resetCursorAfterFilter_filtered (p : Int) (s : NavState) :
    (resetCursorAfterFilter p s).filteredChoices = s.filteredChoices := by
  simp only [resetCursorAfterFilter]
  split_ifs <;> rfl

theorem strBytes_append_ascii (cs : List Char) (c : Char) (h : c.toNat < 128) :
    strBytes (cs ++ [c]) = strBytes cs ++ [c.toNat] := by
  simp [strBytes, utf8EncodeChar, h]

/-- C8 amended: in both variants, Erase-search removes exactly the last
BYTE of `searchQuery` (Go slices the string by bytes) and recomputes
`filteredChoices` from the shortened query; when the final character of
the query is a single-byte (ASCII) character this removes exactly that
character, but a multi-byte final character is truncated mid-character
rather than removed. -/
theorem backspace_removes_last_byte (cfgm : MultiCfg) (sm : MultiState)
    (cfgs : SingleCfg) (ss : SingleState) (cs : List Char) (c : Char)
    (hascii : c.toNat < 128)
    (hm1 : sm.searchMode = true) (hm2 : sm.searchQuery = strBytes (cs ++ [c]))
    (hs1 : ss.searchMode = true) (hs2 : ss.searchQuery = strBytes (cs ++ [c])) :
    (multiStep cfgm sm Key.backspace).1.searchQuery = strBytes cs ∧
    (multiStep cfgm sm Key.backspace).1.nav.filteredChoices =
      filterChoices cfgm.choices (strBytes cs) ∧
    (singleStep cfgs ss Key.backspace).1.searchQuery = strBytes cs ∧
    (singleStep cfgs ss Key.backspace).1.nav.filteredChoices =
      filterChoices cfgs.choices (strBytes cs) := by
  have hq : strBytes (cs ++ [c]) = strBytes cs ++ [c.toNat] := strBytes_append_ascii cs c hascii
  have hdrop : (strBytes (cs ++ [c])).dropLast = strBytes cs := by
    rw [hq]
    simp
  have hnem : sm.searchQuery ≠ [] := by
    rw [hm2, hq]
    simp
  have hnes : ss.searchQuery ≠ [] := by
    rw [hs2, hq]
    simp
  refine ⟨?_, ?_, ?_, ?_⟩
  · simp only [multiStep]
    rw [if_pos ⟨hm1, hnem⟩]
    simp [hm2, hdrop]
  · simp only [multiStep]
    rw [if_pos ⟨hm1, hnem⟩]
    simp [resetCursorAfterFilter_filtered, hm2, hdrop]
  · simp only [singleStep]
    rw [if_pos ⟨hs1, hnes⟩]
    simp [hs2, hdrop]
  · simp only [singleStep]
    rw [if_pos ⟨hs1, hnes⟩]
    simp [resetCursorAfterFilter_filtered, hs2, hdrop]

/-- C8 witness: erasing from the ASCII query "ab" in both variants
yields the query "a" with the filtered list recomputed from it. -/
theorem backspace_removes_last_byte_witness :
    (multiStep cfgMulti2 stC8m Key.backspace).1.searchQuery = strBytes ['a'] ∧
    (multiStep cfgMulti2 stC8m Key.backspace).1.nav.filteredChoices =
      filterChoices cfgMulti2.choices (strBytes ['a']) ∧
    (singleStep cfgSingle2 stC8s Key.backspace).1.searchQuery = strBytes ['a'] ∧
    (singleStep cfgSingle2 stC8s Key.backspace).1.nav.filteredChoices =
      filterChoices cfgSingle2.choices (strBytes ['a']) :=
  backspace_removes_last_byte cfgMulti2 stC8m cfgSingle2 stC8s ['a'] 'b'
    (by decide) (by decide) (by decide) (by decide) (by decide)

/-- C8 counterexample: typing the two-byte character é in search mode
and pressing Backspace leaves the query as the single dangling byte
0xC3; removing the last (and only) character would instead leave the
empty query, so Erase-search does not remove the final multi-byte
character. -/
theorem backspace_multibyte_truncates :
    strBytes ['é'] = [195, 169] ∧
    (runMulti cfgMulti2 (multiInit cfgMulti2)
      [Key.tab, Key.runeKey ['é'], Key.backspace]).1.searchQuery = [195] ∧
    ([195] : List Nat) ≠ strBytes [] := by
  decide


theorem initSelected_foldl_mem_of_mem (choices : List Choice) (defaults : List Int)
    (acc : List Choice) (x : Choice) (hx : x ∈ acc) :
    x ∈ defaults.foldl
      (fun acc i =>
        if 0 ≤ i ∧ i < (choices.length : Int) then acc ++ [choices.getD i.toNat zeroChoice]
        else acc) acc := by
  induction defaults generalizing acc with
  | nil => exact hx
  | cons j t ih =>
    simp only [List.foldl_cons]
    apply ih
    split_ifs
    · exact List.mem_append_left _ hx
    · exact hx

theorem initSelectedChoices_mem (choices : List Choice) (defaults : List Int) (i : Int)
    (hi : i ∈ defaults) (h0 : 0 ≤ i) (h1 : i < (choices.length : Int)) :
    choices.getD i.toNat zeroChoice ∈ initSelectedChoices choices defaults := by
  have main : ∀ (ds : List Int) (acc : List Choice), i ∈ ds →
      choices.getD i.toNat zeroChoice ∈ ds.foldl
        (fun acc j =>
          if 0 ≤ j ∧ j < (choices.length : Int) then
            acc ++ [choices.getD j.toNat zeroChoice]
          else acc) acc := by
    intro ds
    induction ds with
    | nil =>
      intro acc h
      simp at h
    | cons j t ih =>
      intro acc hi2
      simp only [List.foldl_cons]
      rcases List.mem_cons.mp hi2 with rfl | hit
      · apply initSelected_foldl_mem_of_mem
        rw [if_pos ⟨h0, h1⟩]
        exact List.mem_append_right _ (by simp)
      · exact ih _ hit
  exact main defaults [] hi

/-- C9: the disabled flag is not consulted by the default-choice
initialization or by Confirm. Single-select: a valid default index
pointing at a disabled choice makes that choice the initial selection,
an immediate Confirm succeeds, and `Render` returns a `Choice` with
`Disabled = true`. Multi-select: every valid default index contributes
its choice to the initial selection, disabled or not. -/
theorem default_disabled_choice_returned (cfgs : SingleCfg) (d : TermDims)
    (h1 : 0 ≤ cfgs.defaultChoice) (h2 : cfgs.defaultChoice < (cfgs.choices.length : Int))
    (h3 : (cfgs.choices.getD cfgs.defaultChoice.toNat zeroChoice).Disabled = true)
    (hd1 : ¬(d.height < 9 + singlePageSize cfgs)) (hd2 : ¬(d.width < 50))
    (cfgm : MultiCfg) (i : Int) (hi : i ∈ cfgm.defaultChoices)
    (hi0 : 0 ≤ i) (hi1 : i < (cfgm.choices.length : Int)) :
    (singleInit cfgs).selectedChoice =
      cfgs.choices.getD cfgs.defaultChoice.toNat zeroChoice ∧
    singleRender cfgs d [Key.enter] =
      RenderResult.ok (cfgs.choices.getD cfgs.defaultChoice.toNat zeroChoice) ∧
    (cfgs.choices.getD cfgs.defaultChoice.toNat zeroChoice).Disabled = true ∧
    cfgm.choices.getD i.toNat zeroChoice ∈ (multiInit cfgm).selectedChoices := by
  have hsel : (singleInit cfgs).selectedChoice =
      cfgs.choices.getD cfgs.defaultChoice.toNat zeroChoice := by
    simp only [singleInit]
    rw [if_pos ⟨h1, h2⟩]
  have hnz : cfgs.choices.getD cfgs.defaultChoice.toNat zeroChoice ≠ zeroChoice := by
    intro hEq
    rw [hEq] at h3
    simp [zeroChoice] at h3
  have hlen : ¬((singleInit cfgs).nav.filteredChoices.length = 0) := by
    simp only [singleInit]
    intro hz
    rw [hz] at h2
    omega
  have hstep : singleStep cfgs (singleInit cfgs) Key.enter = (singleInit cfgs, true) := by
    simp only [singleStep, singleEnterKey]
    rw [if_neg]
    push_neg
    exact ⟨hlen, by rw [hsel]; exact hnz⟩
  have hrun : runSingle cfgs (singleInit cfgs) [Key.enter] = (singleInit cfgs, true) := by
    simp [runSingle, hstep]
  have m1 : makeSpace d (9 + singlePageSize cfgs) = none := by
    unfold makeSpace
    rw [if_neg]
    push_neg
    exact ⟨by omega, by omega⟩
  refine ⟨hsel, ?_, h3, ?_⟩
  · simp only [singleRender, m1, Option.isSome_none, Bool.false_eq_true, if_false]
    rw [if_neg (by intro hz; rw [hz] at h2; simp at h2; omega)]
    rw [hrun]
    simp only [if_true]
    have hint : (singleInit cfgs).interrupted = false := rfl
    rw [hint]
    simp [hsel]
  · simp only [multiInit]
    rw [if_neg (by intro hz; rw [hz] at hi; simp at hi)]
    exact initSelectedChoices_mem cfgm.choices cfgm.defaultChoices i hi hi0 hi1

/-- C9 witness: a session whose default index 1 names the disabled
choice Date: `Render` returns Date with `Disabled = true`, and the
multi-select default initialization likewise selects it. -/
theorem default_disabled_choice_returned_witness :
    (singleInit cfgC9s).selectedChoice = chDate ∧
    singleRender cfgC9s dimsOk [Key.enter] = RenderResult.ok chDate ∧
    chDate.Disabled = true ∧
    chDate ∈ (multiInit cfgC9m).selectedChoices := by
  have h := default_disabled_choice_returned cfgC9s dimsOk (by decide) (by decide)
    (by decide) (by decide) (by decide) cfgC9m 1 (by decide) (by decide) (by decide)
  exact h


/-- C10 amended: single-select encodes "no selection" as the zero-value
`Choice` and the toggle compares by `Value` only, so from the
no-selection state a Select-toggle on an enabled choice whose `Value` is
the empty string clears (keeps empty) the selection instead of setting
it, and a non-optional Confirm right after is still rejected with "No
selection made (required)". (The choice can still be selected — and
returned — when a different choice is currently selected, or via the
default-choice initialization.) -/
theorem empty_value_toggle_clears (cfg : SingleCfg) (s : SingleState)
    (h0 : s.selectedChoice = zeroChoice)
    (hlen : s.nav.filteredChoices.length ≠ 0)
    (hval : (s.nav.filteredChoices.getD s.nav.cursorIdx.toNat zeroChoice).Value = [])
    (hdis : (s.nav.filteredChoices.getD s.nav.cursorIdx.toNat zeroChoice).Disabled = false)
    (hopt : cfg.optional = false) :
    (singleStep cfg s Key.space).1.selectedChoice = zeroChoice ∧
    (singleStep cfg (singleStep cfg s Key.space).1 Key.enter).2 = false ∧
    (singleStep cfg (singleStep cfg s Key.space).1 Key.enter).1.valMessage =
      noSelectionMadeMsg := by
  have e1 : (singleStep cfg s Key.space).1.selectedChoice = zeroChoice := by
    have h := singleSpaceKey_clears s hlen hdis (by rw [h0, hval]; rfl)
    exact h
  have e2 : singleStep cfg (singleStep cfg s Key.space).1 Key.enter =
      ({ (singleStep cfg s Key.space).1 with valMessage := noSelectionMadeMsg }, false) := by
    have e1s : (singleSpaceKey s).selectedChoice = zeroChoice := e1
    simp only [singleStep, singleEnterKey]
    rw [if_pos (Or.inr e1s)]
    rw [if_neg (by simp [hopt])]
  exact ⟨e1, by rw [e2], by rw [e2]⟩


/-- C10 witness: the amended statement on a fresh session whose only
choice is the enabled empty-`Value` choice: the toggle leaves the
selection empty and Confirm stays rejected. -/
theorem empty_value_toggle_clears_witness :
    (singleStep cfgC10w (singleInit cfgC10w) Key.space).1.selectedChoice = zeroChoice ∧
    (singleStep cfgC10w
      (singleStep cfgC10w (singleInit cfgC10w) Key.space).1 Key.enter).2 = false ∧
    (singleStep cfgC10w
      (singleStep cfgC10w (singleInit cfgC10w) Key.space).1 Key.enter).1.valMessage =
      noSelectionMadeMsg :=
  empty_value_toggle_clears cfgC10w (singleInit cfgC10w) (by decide) (by decide)
    (by decide) (by decide) (by decide)

/-- C10 counterexample: the empty-`Value` choice CAN become the returned
selection: select Banana first, move to the empty-`Value` choice and
toggle (the by-`Value` comparison sees "b" differing from "", so it
sets, not clears), then Confirm succeeds and `Render` returns the
empty-`Value` choice — refuting "such a choice can never become the
returned selection and a non-optional Confirm remains rejected". -/
theorem empty_value_choice_returned :
    singleRender cfgC10 dimsOk [Key.space, Key.down, Key.space, Key.enter] =
      RenderResult.ok chEmptyVal ∧
    chEmptyVal.Value = [] ∧ chEmptyVal.Disabled = false ∧ cfgC10.optional = false := by
  decide

end Asky
